import Mathlib

set_option maxRecDepth 40000

/-
Verification of the message-prioritization backend.

This file gives a shallow embedding, in Lean 4, of the parts of the
backend that the verified properties talk about:

  * the deterministic priority ranker (backend/agents/priority_ranker.py),
  * the rule-based classifier fallback (backend/agents/classifier.py),
  * the feed query predicate (backend/api/feed.py),
  * the message upsert performed by the pipeline (backend/agents/pipeline.py),
  * the periodic score-decay job (backend/tasks/sync.py),
  * the webhook endpoints (backend/api/webhooks.py),
  * token encryption at rest (backend/core/security.py), including a
    faithful model of standard base64.

Modelling conventions:
  * Python floats are modelled as exact rationals (ℚ); Python's
    round(x, 3) is modelled as rounding half-to-even at 3 decimals.
  * Timestamps and "now" are modelled as rationals measured in hours
    (a datetime difference t2 - t1 in hours is then just subtraction).
    Where the code parses a timestamp string and computes an age from
    datetime.now(), the model takes the resulting age (an Option ℚ,
    none modelling a parse failure) as an explicit argument.
  * Byte strings are lists of naturals below 256.
  * External collaborators (the AES-GCM primitive, the LLM endpoint,
    signature verification outcomes) enter as explicit parameters; the
    control flow around them is translated from the source.
-/

/-! ## Rational helpers: Python round(x, 3) and clamping -/

/-- Executable floor on ℚ (agrees with ⌊x⌋, see qfloor_eq). -/
def qfloor (x : ℚ) : ℤ := x.num / x.den

/-- Round a rational to the nearest integer, ties to even — the rounding
used by Python's built-in round(). -/
def roundHalfEven (x : ℚ) : ℤ :=
  let n := qfloor x
  let f := x - n
  if f < 1/2 then n
  else if 1/2 < f then n + 1
  else if n % 2 = 0 then n else n + 1

/-- Python's round(x, 3): round half-to-even at three decimal places. -/
def round3 (x : ℚ) : ℚ := (roundHalfEven (x * 1000) : ℚ) / 1000

lemma qfloor_eq (x : ℚ) : qfloor x = ⌊x⌋ := (Rat.floor_def).symm

lemma qfloor_le_roundHalfEven (x : ℚ) : qfloor x ≤ roundHalfEven x := by
  unfold roundHalfEven
  simp only []
  split_ifs <;> omega

lemma roundHalfEven_le_qfloor_add_one (x : ℚ) : roundHalfEven x ≤ qfloor x + 1 := by
  unfold roundHalfEven
  simp only []
  split_ifs <;> omega

lemma roundHalfEven_intCast (k : ℤ) : roundHalfEven (k : ℚ) = k := by
  unfold roundHalfEven
  rw [qfloor_eq, Int.floor_intCast]
  simp

lemma le_roundHalfEven_of_le {k : ℤ} {x : ℚ} (h : (k : ℚ) ≤ x) :
    k ≤ roundHalfEven x := by
  have h1 : k ≤ ⌊x⌋ := Int.le_floor.mpr h
  have h2 := qfloor_le_roundHalfEven x
  rw [qfloor_eq] at h2
  omega

lemma roundHalfEven_le_of_le {k : ℤ} {x : ℚ} (h : x ≤ (k : ℚ)) :
    roundHalfEven x ≤ k := by
  have hfl : ⌊x⌋ ≤ k := by
    have := Int.floor_le_floor h
    simpa using this
  rcases lt_or_eq_of_le hfl with hlt | heq
  · have := roundHalfEven_le_qfloor_add_one x
    rw [qfloor_eq] at this
    omega
  · have hxk : x = (k : ℚ) := by
      have hle : (k : ℚ) ≤ x := by
        calc (k : ℚ) = (⌊x⌋ : ℚ) := by exact_mod_cast heq.symm
        _ ≤ x := Int.floor_le x
      exact le_antisymm h hle
    rw [hxk, roundHalfEven_intCast]

lemma le_round3_of_le {k : ℤ} {x : ℚ} (h : (k : ℚ) / 1000 ≤ x) :
    (k : ℚ) / 1000 ≤ round3 x := by
  unfold round3
  have hx : (k : ℚ) ≤ x * 1000 := by linarith
  have := le_roundHalfEven_of_le hx
  have hcast : (k : ℚ) ≤ (roundHalfEven (x * 1000) : ℚ) := by exact_mod_cast this
  linarith

lemma round3_le_of_le {k : ℤ} {x : ℚ} (h : x ≤ (k : ℚ) / 1000) :
    round3 x ≤ (k : ℚ) / 1000 := by
  unfold round3
  have hx : x * 1000 ≤ (k : ℚ) := by linarith
  have := roundHalfEven_le_of_le hx
  have hcast : (roundHalfEven (x * 1000) : ℚ) ≤ (k : ℚ) := by exact_mod_cast this
  linarith

/-! ## Substring search and lowercasing

Model of Python's `kw in content` on strings and of str.lower(). -/

/-- Does needle occur as a contiguous sublist of hay (Python `needle in hay`)? -/
def containsSub : List Char → List Char → Bool
  | [], needle => needle.isEmpty
  | h :: t, needle => needle.isPrefixOf (h :: t) || containsSub t needle

/-- Python str.lower(), on the character list of a string. -/
def lowerChars (s : String) : List Char := s.data.map Char.toLower

/-- Number of keywords from the lexicon occurring in the (already
lowercased) content: sum(1 for kw in KEYWORDS if kw in content_lower). -/
def countKeywordHits (keywords : List String) (contentLower : List Char) : Nat :=
  (keywords.filter (fun kw => containsSub contentLower kw.data)).length

/-! ## Data model (backend/agents/state.py)

Pydantic models SenderContext, AIEnrichment, MessageState, restricted to
the fields the verified code paths read or write. -/

structure SenderContext where
  id : String
  name : String
  email : Option String
  relationship : String
  is_vip : Bool
  historical_reply_rate : ℚ
deriving DecidableEq, Repr

structure AIEnrichment where
  priority_score : ℚ
  priority_label : String
  sentiment : String
  summary : String
  context_note : String
  suggested_actions : List String
  is_complaint : Bool
  needs_careful_response : Bool
  suggested_approach : String
  time_sensitive : Bool
  classification_reasoning : String
deriving DecidableEq, Repr

structure MessageState where
  id : String
  user_id : String
  platform : String
  platform_message_id : String
  thread_id : String
  sender : SenderContext
  content_text : String
  timestamp : String
  is_read : Bool
  is_done : Bool
  snoozed_until : Option String
  ai_enrichment : AIEnrichment
  draft_reply : Option String
deriving DecidableEq, Repr

/-! ## Priority ranker (backend/agents/priority_ranker.py) -/

/-- RELATIONSHIP_SCORES dict; .get(relationship, 0.2). -/
def RELATIONSHIP_SCORES (relationship : String) : ℚ :=
  if relationship = "vip" then 1
  else if relationship = "close_contact" then 8/10
  else if relationship = "work_contact" then 65/100
  else if relationship = "acquaintance" then 4/10
  else if relationship = "stranger" then 2/10
  else if relationship = "bot" then 5/100
  else if relationship = "newsletter" then 2/100
  else 2/10

/-- SENTIMENT_SCORES dict; .get(sentiment, 0.3). -/
def SENTIMENT_SCORES (sentiment : String) : ℚ :=
  if sentiment = "distressed" then 1
  else if sentiment = "urgent" then 9/10
  else if sentiment = "tense" then 7/10
  else if sentiment = "neutral" then 3/10
  else if sentiment = "positive" then 2/10
  else 3/10

/-- URGENCY_KEYWORDS list of the ranker. -/
def URGENCY_KEYWORDS : List String :=
  ["asap", "urgent", "deadline", "today", "help", "call me",
   "immediately", "critical", "emergency", "important", "breaking",
   "time-sensitive", "overdue", "expires", "final notice"]

/-- _compute_time_decay: piecewise decay of the time-sensitivity signal by
message age in hours; none models a timestamp that fails to parse
(the except branch returning 0.5). -/
def compute_time_decay (ageHours : Option ℚ) : ℚ :=
  match ageHours with
  | none => 1/2
  | some a =>
    if a < 1 then 1
    else if a < 24 then 1 - a/48
    else if a < 48 then max (1/10) (1 - a/48)
    else 1/20

/-- The six-signal weighted sum computed by compute_priority before the
VIP override and clamping (weights from the WEIGHTS dict). -/
def weighted_signal_sum (state : MessageState)
    (thread_message_count thread_recent_replies : Nat)
    (ageHours : Option ℚ) : ℚ :=
  let scores_sender_relationship := RELATIONSHIP_SCORES state.sender.relationship
  let content_lower := lowerChars state.content_text
  let keyword_hits := countKeywordHits URGENCY_KEYWORDS content_lower
  let scores_urgency_keywords := min 1 ((keyword_hits : ℚ) * (25/100))
  let scores_time_sensitivity := compute_time_decay ageHours
  let scores_historical_response_rate := state.sender.historical_reply_rate
  let scores_thread_activity :=
    if thread_message_count > 1 then
      max (3/10) (min 1 ((thread_recent_replies : ℚ) / ((max thread_message_count 1 : Nat) : ℚ)))
    else 1/10
  let scores_sentiment_intensity := SENTIMENT_SCORES state.ai_enrichment.sentiment
  scores_sender_relationship * (30/100) + scores_urgency_keywords * (20/100) +
    scores_time_sensitivity * (15/100) + scores_historical_response_rate * (15/100) +
    scores_thread_activity * (10/100) + scores_sentiment_intensity * (10/100)

/-- Label selection of compute_priority from the final (clamped, rounded)
score; below 0.30 a spam/social label set by the classifier is preserved. -/
def ranker_label (final_score : ℚ) (classifier_label : String) : String :=
  if final_score ≥ 85/100 then "urgent"
  else if final_score ≥ 60/100 then "action"
  else if final_score ≥ 30/100 then "fyi"
  else if classifier_label = "spam" ∨ classifier_label = "social" then classifier_label
  else "social"

/-- compute_priority: the deterministic ranker. Applies the weighted
formula, the VIP floor, clamping to [0,1], rounding to 3 decimals, and
threshold-based label selection, then writes score and label onto the
state's enrichment. -/
def compute_priority (state : MessageState)
    (thread_message_count thread_recent_replies : Nat)
    (ageHours : Option ℚ) : MessageState :=
  let ws := weighted_signal_sum state thread_message_count thread_recent_replies ageHours
  let with_vip := if state.sender.is_vip then max ws (60/100) else ws
  let final_score := round3 (max 0 (min 1 with_vip))
  let label := ranker_label final_score state.ai_enrichment.priority_label
  { state with
    ai_enrichment := { state.ai_enrichment with
      priority_score := final_score
      priority_label := label } }

/-! ## Ranker lemmas -/

lemma round3_nonneg {x : ℚ} (hx : 0 ≤ x) : 0 ≤ round3 x := by
  have h := le_round3_of_le (k := 0) (x := x) (by simpa using hx)
  simpa using h

lemma round3_le_one {x : ℚ} (hx : x ≤ 1) : round3 x ≤ 1 := by
  have h := round3_le_of_le (k := 1000) (x := x) (by push_cast; linarith)
  push_cast at h
  linarith

lemma time_decay_ge (age : Option ℚ) : 1/20 ≤ compute_time_decay age := by
  cases age with
  | none => norm_num [compute_time_decay]
  | some a =>
    simp only [compute_time_decay]
    split_ifs with h1 h2 h3
    · norm_num
    · linarith
    · exact le_trans (by norm_num) (le_max_left _ _)
    · norm_num

lemma time_decay_le (age : Option ℚ) : compute_time_decay age ≤ 1 := by
  cases age with
  | none => norm_num [compute_time_decay]
  | some a =>
    simp only [compute_time_decay]
    split_ifs with h1 h2 h3
    · norm_num
    · have ha : (1:ℚ) ≤ a := not_lt.mp h1
      linarith
    · have ha : (24:ℚ) ≤ a := not_lt.mp h2
      exact max_le (by norm_num) (by linarith)
    · norm_num

lemma ranker_label_urgent_iff (sc : ℚ) (prior : String) :
    ranker_label sc prior = "urgent" ↔ 85/100 ≤ sc := by
  unfold ranker_label
  by_cases h1 : sc ≥ 85/100
  · rw [if_pos h1]
    exact ⟨fun _ => h1, fun _ => rfl⟩
  · rw [if_neg h1]
    constructor
    · intro h
      exfalso
      split_ifs at h with h2 h3 h4
      · exact absurd h (by decide)
      · exact absurd h (by decide)
      · rcases h4 with hs | hs <;> rw [hs] at h <;> exact absurd h (by decide)
      · exact absurd h (by decide)
    · intro hh
      exact absurd hh h1

lemma ranker_label_action_iff (sc : ℚ) (prior : String) :
    ranker_label sc prior = "action" ↔ (60/100 ≤ sc ∧ sc < 85/100) := by
  unfold ranker_label
  by_cases h1 : sc ≥ 85/100
  · rw [if_pos h1]
    exact ⟨fun h => absurd h (by decide), fun hh => absurd hh.2 (not_lt.mpr h1)⟩
  · rw [if_neg h1]
    by_cases h2 : sc ≥ 60/100
    · rw [if_pos h2]
      exact ⟨fun _ => ⟨h2, not_le.mp h1⟩, fun _ => rfl⟩
    · rw [if_neg h2]
      constructor
      · intro h
        exfalso
        split_ifs at h with h3 h4
        · exact absurd h (by decide)
        · rcases h4 with hs | hs <;> rw [hs] at h <;> exact absurd h (by decide)
        · exact absurd h (by decide)
      · intro hh
        exact absurd hh.1 h2

lemma ranker_label_fyi_iff (sc : ℚ) (prior : String) :
    ranker_label sc prior = "fyi" ↔ (30/100 ≤ sc ∧ sc < 60/100) := by
  unfold ranker_label
  by_cases h1 : sc ≥ 85/100
  · rw [if_pos h1]
    exact ⟨fun h => absurd h (by decide), fun hh => absurd hh.2 (not_lt.mpr (by linarith))⟩
  · rw [if_neg h1]
    by_cases h2 : sc ≥ 60/100
    · rw [if_pos h2]
      exact ⟨fun h => absurd h (by decide), fun hh => absurd hh.2 (not_lt.mpr h2)⟩
    · rw [if_neg h2]
      by_cases h3 : sc ≥ 30/100
      · rw [if_pos h3]
        exact ⟨fun _ => ⟨h3, not_le.mp h2⟩, fun _ => rfl⟩
      · rw [if_neg h3]
        constructor
        · intro h
          exfalso
          split_ifs at h with h4
          · rcases h4 with hs | hs <;> rw [hs] at h <;> exact absurd h (by decide)
          · exact absurd h (by decide)
        · intro hh
          exact absurd hh.1 h3

lemma ranker_label_low (sc : ℚ) (prior : String) (h : sc < 30/100) :
    ranker_label sc prior =
      if prior = "spam" ∨ prior = "social" then prior else "social" := by
  unfold ranker_label
  rw [if_neg (not_le.mpr (by linarith : sc < 85/100)),
      if_neg (not_le.mpr (by linarith : sc < 60/100)),
      if_neg (not_le.mpr (by linarith : sc < 30/100))]

lemma compute_priority_score_eq (state : MessageState) (tc tr : Nat) (age : Option ℚ) :
    (compute_priority state tc tr age).ai_enrichment.priority_score
      = round3 (max 0 (min 1 (if state.sender.is_vip
          then max (weighted_signal_sum state tc tr age) (60/100)
          else weighted_signal_sum state tc tr age))) := rfl

lemma compute_priority_label_eq (state : MessageState) (tc tr : Nat) (age : Option ℚ) :
    (compute_priority state tc tr age).ai_enrichment.priority_label
      = ranker_label ((compute_priority state tc tr age).ai_enrichment.priority_score)
          state.ai_enrichment.priority_label := rfl

lemma compute_priority_score_nonneg (state : MessageState) (tc tr : Nat) (age : Option ℚ) :
    0 ≤ (compute_priority state tc tr age).ai_enrichment.priority_score := by
  rw [compute_priority_score_eq]
  exact round3_nonneg (le_max_left _ _)

lemma compute_priority_score_le_one (state : MessageState) (tc tr : Nat) (age : Option ℚ) :
    (compute_priority state tc tr age).ai_enrichment.priority_score ≤ 1 := by
  rw [compute_priority_score_eq]
  exact round3_le_one (max_le (by norm_num) (min_le_left _ _))

/-- C1: after compute_priority runs on any message, the persisted
priority_score lies in [0,1] and the persisted priority_label agrees with
the thresholds — "urgent" iff score ≥ 0.85, "action" iff 0.60 ≤ score
< 0.85, "fyi" iff 0.30 ≤ score < 0.60, and below 0.30 the classifier's
prior spam/social label is preserved, else the label is "social". -/
theorem C1_ranker_score_label_invariant
    (state : MessageState) (tc tr : Nat) (age : Option ℚ) :
    (0 ≤ (compute_priority state tc tr age).ai_enrichment.priority_score ∧
      (compute_priority state tc tr age).ai_enrichment.priority_score ≤ 1) ∧
    ((compute_priority state tc tr age).ai_enrichment.priority_label = "urgent" ↔
      85/100 ≤ (compute_priority state tc tr age).ai_enrichment.priority_score) ∧
    ((compute_priority state tc tr age).ai_enrichment.priority_label = "action" ↔
      (60/100 ≤ (compute_priority state tc tr age).ai_enrichment.priority_score ∧
        (compute_priority state tc tr age).ai_enrichment.priority_score < 85/100)) ∧
    ((compute_priority state tc tr age).ai_enrichment.priority_label = "fyi" ↔
      (30/100 ≤ (compute_priority state tc tr age).ai_enrichment.priority_score ∧
        (compute_priority state tc tr age).ai_enrichment.priority_score < 60/100)) ∧
    ((compute_priority state tc tr age).ai_enrichment.priority_score < 30/100 →
      (compute_priority state tc tr age).ai_enrichment.priority_label =
        if state.ai_enrichment.priority_label = "spam" ∨
            state.ai_enrichment.priority_label = "social"
        then state.ai_enrichment.priority_label else "social") := by
  refine ⟨⟨compute_priority_score_nonneg state tc tr age,
           compute_priority_score_le_one state tc tr age⟩, ?_, ?_, ?_, ?_⟩
  · rw [compute_priority_label_eq]
    exact ranker_label_urgent_iff _ _
  · rw [compute_priority_label_eq]
    exact ranker_label_action_iff _ _
  · rw [compute_priority_label_eq]
    exact ranker_label_fyi_iff _ _
  · intro hlow
    rw [compute_priority_label_eq]
    exact ranker_label_low _ _ hlow

/-- C2: for every message whose sender has is_vip = true, the ranker's
persisted priority score is at least 0.60, whatever the six weighted
signals are (the VIP override precedes clamping and rounding). -/
theorem C2_vip_floor (state : MessageState) (tc tr : Nat) (age : Option ℚ)
    (hvip : state.sender.is_vip = true) :
    60/100 ≤ (compute_priority state tc tr age).ai_enrichment.priority_score := by
  rw [compute_priority_score_eq, hvip, if_pos rfl]
  have hcl : 60/100 ≤ max 0 (min 1 (max (weighted_signal_sum state tc tr age) (60/100))) :=
    le_max_of_le_right (le_min (by norm_num) (le_max_right _ _))
  have h := le_round3_of_le (k := 600)
    (x := max 0 (min 1 (max (weighted_signal_sum state tc tr age) (60/100))))
    (by push_cast; linarith)
  push_cast at h
  linarith

/-- Witness for C2 at a concrete VIP message. -/
theorem C2_vip_floor_witness :
    60/100 ≤ (compute_priority
      ⟨"m1", "u1", "slack", "pm1", "t1",
        ⟨"s1", "Ana", none, "vip", true, 0⟩,
        "hello", "2025-01-01T00:00:00Z", false, false, none,
        ⟨0, "fyi", "neutral", "", "", [], false, false, "", false, ""⟩,
        none⟩ 1 0 (some 0)).ai_enrichment.priority_score :=
  C2_vip_floor _ 1 0 (some 0) rfl

/-- The state of the spec's urgent-from-VIP scenario, instantiated as
favourably as possible: VIP sender with reply rate 1.0, urgent sentiment,
fresh message (age 0), maximal thread activity (2 of 2 recent). -/
def c3state : MessageState :=
  ⟨"m3", "u1", "slack", "pm3", "t3",
    ⟨"s3", "Maya", none, "vip", true, 1⟩,
    "Need this ASAP — production is down", "2025-01-01T00:00:00Z", false, false, none,
    ⟨0, "fyi", "urgent", "", "", [], false, false, "", false, ""⟩,
    none⟩

/-- C3 counterexample: even at the most favourable historical reply rate
(1.0), thread activity (all recent) and timestamp (fresh), the scenario's
message scores 0.84 = 0.30 + 0.05 + 0.15 + 0.15 + 0.10 + 0.09 and is
labelled "action", not "urgent" — the claimed score ≥ 0.85 is unreachable. -/
theorem C3_counterexample :
    (compute_priority c3state 2 2 (some 0)).ai_enrichment.priority_score = 84/100 ∧
    (compute_priority c3state 2 2 (some 0)).ai_enrichment.priority_label = "action" := by
  with_unfolding_all decide

/-- C3 (amended): for every message from a sender with relationship "vip"
and content "Need this ASAP — production is down" whose sentiment
enrichment is "urgent", and any reply rate in [0,1], thread activity and
age, the ranker returns priority_score ≤ 0.84 and never the label
"urgent". -/
theorem C3_amended (state : MessageState) (tc tr : Nat) (age : Option ℚ)
    (hrel : state.sender.relationship = "vip")
    (hcontent : state.content_text = "Need this ASAP — production is down")
    (hsent : state.ai_enrichment.sentiment = "urgent")
    (hrr0 : 0 ≤ state.sender.historical_reply_rate)
    (hrr1 : state.sender.historical_reply_rate ≤ 1) :
    (compute_priority state tc tr age).ai_enrichment.priority_score ≤ 84/100 ∧
    (compute_priority state tc tr age).ai_enrichment.priority_label ≠ "urgent" := by
  have hws : weighted_signal_sum state tc tr age ≤ 84/100 := by
    rw [weighted_signal_sum, hrel, hcontent, hsent]
    have hk : countKeywordHits URGENCY_KEYWORDS
        (lowerChars "Need this ASAP — production is down") = 1 := by
      with_unfolding_all decide
    rw [hk]
    have hrelv : RELATIONSHIP_SCORES "vip" = 1 := rfl
    have hsentv : SENTIMENT_SCORES "urgent" = 9/10 := rfl
    rw [hrelv, hsentv]
    have hdec := time_decay_le age
    have hthr : (if tc > 1 then
        max (3/10) (min 1 ((tr : ℚ) / ((max tc 1 : Nat) : ℚ)))
        else (1/10 : ℚ)) ≤ 1 := by
      split_ifs
      · exact max_le (by norm_num) (min_le_left _ _)
      · norm_num
    have hminv : min 1 (((1 : Nat) : ℚ) * (25/100)) = 25/100 := by norm_num
    rw [hminv]
    set ta := (if tc > 1 then
        max (3/10) (min 1 ((tr : ℚ) / ((max tc 1 : Nat) : ℚ)))
        else (1/10 : ℚ)) with hta
    linarith
  have hsc : (compute_priority state tc tr age).ai_enrichment.priority_score ≤ 84/100 := by
    rw [compute_priority_score_eq]
    have hcl : max 0 (min 1 (if state.sender.is_vip
        then max (weighted_signal_sum state tc tr age) (60/100)
        else weighted_signal_sum state tc tr age)) ≤ 84/100 := by
      apply max_le (by norm_num)
      apply le_trans (min_le_right _ _)
      split_ifs
      · exact max_le hws (by norm_num)
      · exact hws
    have h := round3_le_of_le (k := 840)
      (x := max 0 (min 1 (if state.sender.is_vip
        then max (weighted_signal_sum state tc tr age) (60/100)
        else weighted_signal_sum state tc tr age)))
      (by push_cast; linarith)
    push_cast at h
    linarith
  refine ⟨hsc, ?_⟩
  rw [compute_priority_label_eq]
  intro hlab
  have := (ranker_label_urgent_iff _ _).mp hlab
  linarith

/-- Witness for the amended C3 at the concrete scenario state. -/
theorem C3_amended_witness :
    (compute_priority c3state 2 2 (some 0)).ai_enrichment.priority_score ≤ 84/100 ∧
    (compute_priority c3state 2 2 (some 0)).ai_enrichment.priority_label ≠ "urgent" :=
  C3_amended c3state 2 2 (some 0) rfl rfl rfl (by norm_num [c3state]) (by norm_num [c3state])

/-! ## Classifier (backend/agents/classifier.py) -/

/-- relationship_scores dict inside _fallback_classify; .get(rel, 0.06). -/
def fallback_relationship_scores (relationship : String) : ℚ :=
  if relationship = "vip" then 30/100
  else if relationship = "close_contact" then 24/100
  else if relationship = "work_contact" then 18/100
  else if relationship = "acquaintance" then 12/100
  else if relationship = "stranger" then 6/100
  else if relationship = "bot" then 2/100
  else if relationship = "newsletter" then 1/100
  else 6/100

/-- urgent_keywords list of _fallback_classify (10 terms). -/
def FALLBACK_URGENT_KEYWORDS : List String :=
  ["asap", "urgent", "deadline", "today", "help", "call me",
   "immediately", "critical", "emergency", "important"]

/-- spam_keywords list of _fallback_classify. -/
def SPAM_KEYWORDS : List String :=
  ["unsubscribe", "click here", "limited time", "offer", "deal"]

/-- The additive score of _fallback_classify before label selection:
relationship tier, urgency keyword bonus capped at 0.20, reply-rate
weight, VIP boost, then clamped to [0,1]. -/
def fallback_base_score (state : MessageState) : ℚ :=
  let score1 := fallback_relationship_scores state.sender.relationship
  let score2 := score1 + min (20/100)
    ((countKeywordHits FALLBACK_URGENT_KEYWORDS (lowerChars state.content_text) : ℚ) * (5/100))
  let score3 := score2 + state.sender.historical_reply_rate * (15/100)
  let score4 := if state.sender.is_vip then score3 + 15/100 else score3
  max 0 (min 1 score4)

/-- Label selection of _fallback_classify; in the residual (< 0.30) branch
a spam keyword forces label "spam" and lowers the score to
min(score, 0.15). Returns (label, score). -/
def fallback_label_score (score : ℚ) (content_lower : List Char) : String × ℚ :=
  if score ≥ 85/100 then ("urgent", score)
  else if score ≥ 60/100 then ("action", score)
  else if score ≥ 30/100 then ("fyi", score)
  else if SPAM_KEYWORDS.any (fun kw => containsSub content_lower kw.data) then
    ("spam", min score (15/100))
  else ("social", score)

/-- _fallback_classify: the deterministic rule-based classification used
whenever the LLM call fails. Writes label, round(score, 3) and the fixed
fallback reasoning string onto the enrichment. -/
def fallback_classify (state : MessageState) : MessageState :=
  let ls := fallback_label_score (fallback_base_score state) (lowerChars state.content_text)
  { state with ai_enrichment := { state.ai_enrichment with
      priority_label := ls.1
      priority_score := round3 ls.2
      classification_reasoning := "Classified using rule-based fallback" } }

/-- Parsed JSON of a successful LLM classification; optional fields model
result.get defaults. -/
structure LlmClassifyResult where
  label : Option String
  priority_score : Option ℚ
  time_sensitive : Option Bool
  reasoning : Option String
deriving DecidableEq, Repr

/-- Outcome of the LLM call in classify_message: success with a parsed
result, or one of the three caught exception classes (anthropic.APIError;
json.JSONDecodeError / KeyError / IndexError; any other Exception). -/
inductive ClassifierOutcome where
  | success (result : LlmClassifyResult)
  | apiError
  | parseError
  | unexpectedError
deriving DecidableEq, Repr

/-- classify_message: on a successful LLM call, validate the label,
clamp the score and record reasoning; on any caught error, fall back to
_fallback_classify. Total as a Lean function — the embedded control flow
never propagates an exception to the caller. -/
def classify_message (state : MessageState) (outcome : ClassifierOutcome) : MessageState :=
  match outcome with
  | .success r =>
    let label0 := r.label.getD "fyi"
    let label := if label0 = "urgent" ∨ label0 = "action" ∨ label0 = "fyi" ∨
        label0 = "social" ∨ label0 = "spam" then label0 else "fyi"
    let score := max 0 (min 1 (r.priority_score.getD 0))
    let reasoning := r.reasoning.getD ""
    let note :=
      if reasoning ≠ "" then
        if state.ai_enrichment.context_note ≠ "" then
          state.ai_enrichment.context_note ++ " | " ++ reasoning
        else reasoning
      else state.ai_enrichment.context_note
    { state with ai_enrichment := { state.ai_enrichment with
        priority_label := label
        priority_score := score
        time_sensitive := r.time_sensitive.getD false
        classification_reasoning := reasoning
        context_note := note } }
  | .apiError => fallback_classify state
  | .parseError => fallback_classify state
  | .unexpectedError => fallback_classify state

/-- The fallback score exactly as claim C8 words it: clamp(relationship
tier (max 0.30) + urgency-keyword hits × 0.05 capped at 0.20 +
reply_rate × 0.15 + 0.15 VIP boost). Written from the claim's words for
comparison with the code's fallback; the code additionally lowers the
score in its residual spam branch. -/
def c8_claimed_fallback_score (state : MessageState) : ℚ :=
  max 0 (min 1 (fallback_relationship_scores state.sender.relationship
    + min (20/100)
      ((countKeywordHits FALLBACK_URGENT_KEYWORDS (lowerChars state.content_text) : ℚ) * (5/100))
    + state.sender.historical_reply_rate * (15/100)
    + (if state.sender.is_vip then 15/100 else 0)))

/-- The claim's formula amended by the spam-branch reduction the code
actually performs. -/
def c8_amended_fallback_score (state : MessageState) : ℚ :=
  let base := c8_claimed_fallback_score state
  if base < 30/100 ∧
      SPAM_KEYWORDS.any (fun kw => containsSub (lowerChars state.content_text) kw.data) then
    min base (15/100)
  else base

lemma fallback_base_eq_claimed (state : MessageState) :
    fallback_base_score state = c8_claimed_fallback_score state := by
  unfold fallback_base_score c8_claimed_fallback_score
  cases hv : state.sender.is_vip <;> simp [hv] <;> ring_nf

lemma fallback_classify_score (state : MessageState) :
    (fallback_classify state).ai_enrichment.priority_score
      = round3 (c8_amended_fallback_score state) := by
  have hproj : (fallback_classify state).ai_enrichment.priority_score
      = round3 (fallback_label_score (fallback_base_score state)
          (lowerChars state.content_text)).2 := rfl
  rw [hproj]
  congr 1
  rw [fallback_base_eq_claimed]
  unfold c8_amended_fallback_score fallback_label_score
  by_cases h1 : c8_claimed_fallback_score state ≥ 85/100
  · rw [if_pos h1, if_neg (fun hc => absurd hc.1 (not_lt.mpr (by linarith)))]
  · rw [if_neg h1]
    by_cases h2 : c8_claimed_fallback_score state ≥ 60/100
    · rw [if_pos h2, if_neg (fun hc => absurd hc.1 (not_lt.mpr (by linarith)))]
    · rw [if_neg h2]
      by_cases h3 : c8_claimed_fallback_score state ≥ 30/100
      · rw [if_pos h3, if_neg (fun hc => absurd hc.1 (not_lt.mpr (by linarith)))]
      · rw [if_neg h3]
        by_cases h4 : SPAM_KEYWORDS.any
            (fun kw => containsSub (lowerChars state.content_text) kw.data) = true
        · rw [if_pos h4, if_pos ⟨not_le.mp h3, h4⟩]
        · rw [if_neg h4, if_neg (fun hc => absurd hc.2 h4)]

lemma fallback_classify_reasoning (state : MessageState) :
    (fallback_classify state).ai_enrichment.classification_reasoning
      = "Classified using rule-based fallback" := rfl

/-- Message state for C8's counterexample: a stranger with perfect reply
rate whose content carries a spam keyword but no urgency keyword. -/
def c8state : MessageState :=
  ⟨"m8", "u1", "gmail", "pm8", "t8",
    ⟨"s8", "Promo Desk", none, "stranger", false, 1⟩,
    "please unsubscribe", "2025-01-01T00:00:00Z", false, false, none,
    ⟨0, "fyi", "neutral", "", "", [], false, false, "", false, ""⟩,
    none⟩

/-- C8 counterexample: on an LLM failure the persisted score for c8state
is 0.15 (the spam branch lowers it), while the claim's formula yields
clamp(0.06 + 0 + 0.15 + 0) = 0.21 — the claimed score equation is wrong. -/
theorem C8_counterexample :
    (classify_message c8state ClassifierOutcome.apiError).ai_enrichment.priority_score
      = 15/100 ∧
    c8_claimed_fallback_score c8state = 21/100 ∧
    (15/100 : ℚ) ≠ 21/100 := by
  with_unfolding_all decide

/-- C8 (amended): classify_message never raises — on any caught LLM
error it applies the rule fallback, whose persisted score is the claim's
formula further reduced to min(score, 0.15) when the clamped sum is
below 0.30 and a spam keyword occurs, rounded to 3 decimals; and the
persisted classification_reasoning contains "fallback". -/
theorem C8_amended (state : MessageState) (outcome : ClassifierOutcome)
    (herr : outcome = ClassifierOutcome.apiError ∨
      outcome = ClassifierOutcome.parseError ∨
      outcome = ClassifierOutcome.unexpectedError) :
    (classify_message state outcome).ai_enrichment.priority_score
      = round3 (c8_amended_fallback_score state) ∧
    containsSub
      (classify_message state outcome).ai_enrichment.classification_reasoning.data
      "fallback".data = true := by
  have hfb : classify_message state outcome = fallback_classify state := by
    rcases herr with h | h | h <;> rw [h] <;> rfl
  rw [hfb, fallback_classify_score, fallback_classify_reasoning]
  exact ⟨rfl, by decide⟩

/-- Witness for the amended C8 at the concrete counterexample state. -/
theorem C8_amended_witness :
    (classify_message c8state ClassifierOutcome.apiError).ai_enrichment.priority_score
      = round3 (c8_amended_fallback_score c8state) ∧
    containsSub
      (classify_message c8state ClassifierOutcome.apiError).ai_enrichment.classification_reasoning.data
      "fallback".data = true :=
  C8_amended c8state ClassifierOutcome.apiError (Or.inl rfl)

lemma fallback_relationship_scores_le (relationship : String) :
    fallback_relationship_scores relationship ≤ 30/100 := by
  unfold fallback_relationship_scores
  split_ifs <;> norm_num

lemma fallback_base_score_le (state : MessageState)
    (hrr1 : state.sender.historical_reply_rate ≤ 1) :
    fallback_base_score state ≤ 80/100 := by
  unfold fallback_base_score
  have h1 := fallback_relationship_scores_le state.sender.relationship
  have h2 : min (20/100 : ℚ)
      ((countKeywordHits FALLBACK_URGENT_KEYWORDS (lowerChars state.content_text) : ℚ)
        * (5/100)) ≤ 20/100 := min_le_left _ _
  have h3 : state.sender.historical_reply_rate * (15/100) ≤ 15/100 := by linarith
  apply max_le (by norm_num)
  apply le_trans (min_le_right _ _)
  split_ifs <;> linarith

/-- C10: with any reply rate in the documented [0,1] domain, the rule
fallback's persisted priority score is at most 0.80 (the four additive
terms are bounded by 0.30 + 0.20 + 0.15 + 0.15) and so its label is
never "urgent" — when the LLM is down no message reaches the 0.85
threshold through the classifier. -/
theorem C10_fallback_never_urgent (state : MessageState)
    (hrr1 : state.sender.historical_reply_rate ≤ 1) :
    (fallback_classify state).ai_enrichment.priority_score ≤ 80/100 ∧
    (fallback_classify state).ai_enrichment.priority_label ≠ "urgent" := by
  have hbase := fallback_base_score_le state hrr1
  constructor
  · have hproj : (fallback_classify state).ai_enrichment.priority_score
        = round3 (fallback_label_score (fallback_base_score state)
            (lowerChars state.content_text)).2 := rfl
    rw [hproj]
    have hval : (fallback_label_score (fallback_base_score state)
        (lowerChars state.content_text)).2 ≤ 80/100 := by
      unfold fallback_label_score
      split_ifs <;> simp only [] <;>
        first
          | exact hbase
          | exact le_trans (min_le_left _ _) hbase
    have h := round3_le_of_le (k := 800)
      (x := (fallback_label_score (fallback_base_score state)
        (lowerChars state.content_text)).2)
      (by push_cast; linarith)
    push_cast at h
    linarith
  · have hproj : (fallback_classify state).ai_enrichment.priority_label
        = (fallback_label_score (fallback_base_score state)
            (lowerChars state.content_text)).1 := rfl
    rw [hproj]
    unfold fallback_label_score
    split_ifs with h1
    · exact absurd (le_trans h1 hbase) (by norm_num)
    all_goals simp only [] <;> decide
  
/-- Witness for C10 at a concrete message state. -/
theorem C10_witness :
    (fallback_classify c8state).ai_enrichment.priority_score ≤ 80/100 ∧
    (fallback_classify c8state).ai_enrichment.priority_label ≠ "urgent" :=
  C10_fallback_never_urgent c8state (by norm_num [c8state])

/-! ## Persistent message rows and the feed query (backend/models/database.py,
backend/api/feed.py)

Row timestamps, snooze times and processed_at are modelled as rationals
measured in hours. The feed endpoint's ordering, offset/limit pagination
and Redis cache are not modelled: the verified claim concerns which rows
the WHERE clause makes visible. -/

structure MessageRow where
  id : String
  user_id : String
  platform : String
  platform_message_id : String
  thread_id : String
  sender_id : String
  sender_name : String
  sender_email : Option String
  content_text : String
  timestamp : ℚ
  is_read : Bool
  is_done : Bool
  snoozed_until : Option ℚ
  priority_score : ℚ
  priority_label : String
  sentiment : String
  ai_context_note : String
  summary : String
  classification_reasoning : String
  is_complaint : Bool
  needs_careful_response : Bool
  suggested_approach : String
  suggested_actions : List String
  draft_reply : Option String
  processed_at : ℚ
deriving DecidableEq, Repr

/-- The WHERE clause built by get_feed: user match, is_done = false,
snoozed_until IS NULL, plus the optional platform/priority filters
(added only when the query parameter is truthy, as in Python). -/
def feed_where (user_id : String) (platform priority : Option String)
    (m : MessageRow) : Bool :=
  m.user_id == user_id && m.is_done == false && m.snoozed_until == none &&
  (match platform with
   | none => true
   | some p => if p = "" then true else m.platform == p) &&
  (match priority with
   | none => true
   | some p => if p = "" then true else m.priority_label == p)

/-- The rows the feed query returns (before ordering and pagination). -/
def get_feed_rows (db : List MessageRow) (user_id : String)
    (platform priority : Option String) : List MessageRow :=
  db.filter (feed_where user_id platform priority)

/-- Feed visibility exactly as claim C4 words it: is_done = false and
(snoozed_until is null or snoozed_until ≤ now). Written from the claim
for comparison with the code's WHERE clause. -/
def feed_visible_spec (now : ℚ) (m : MessageRow) : Bool :=
  !m.is_done &&
  (match m.snoozed_until with
   | none => true
   | some t => decide (t ≤ now))

/-- A message whose snooze expired at t = 5 (now = 10) but has not yet
been cleared by the reaper. -/
def c4row : MessageRow :=
  ⟨"m4", "u1", "slack", "pm4", "t4", "s4", "Noa", none, "ping", 0,
    false, false, some 5, 1/2, "fyi", "neutral", "", "", "",
    false, false, "", [], none, 0⟩

/-- C4 counterexample: c4row is visible under the claim's predicate at
now = 10 (snooze already passed), yet the feed query returns nothing —
the code filters on snoozed_until IS NULL only. -/
theorem C4_counterexample :
    feed_visible_spec 10 c4row = true ∧
    get_feed_rows [c4row] "u1" none none = [] := by
  with_unfolding_all decide

/-- C4 (amended): the unfiltered feed returns a message iff it belongs to
the user, is_done = false and snoozed_until is null — a message whose
snooze time has passed but was not yet cleared by the reaper is NOT
visible until the reaper nulls it. -/
theorem C4_amended (db : List MessageRow) (uid : String) (m : MessageRow) :
    m ∈ get_feed_rows db uid none none ↔
      (m ∈ db ∧ m.user_id = uid ∧ m.is_done = false ∧ m.snoozed_until = none) := by
  unfold get_feed_rows feed_where
  rw [List.mem_filter]
  simp only [Bool.and_eq_true, beq_iff_eq, and_true]
  tauto

/-! ## Pipeline upsert (backend/agents/pipeline.py, _upsert_message) -/

/-- The natural-key match of _upsert_message's SELECT:
(user_id, platform, platform_message_id). -/
def msg_key_matches (state : MessageState) (row : MessageRow) : Bool :=
  row.user_id == state.user_id && row.platform == state.platform &&
  row.platform_message_id == state.platform_message_id

/-- The update branch of _upsert_message: only AI enrichment fields and
processed_at are written to the existing row. -/
def update_enrichment_fields (row : MessageRow) (state : MessageState) (now : ℚ) : MessageRow :=
  { row with
    priority_score := state.ai_enrichment.priority_score
    priority_label := state.ai_enrichment.priority_label
    sentiment := state.ai_enrichment.sentiment
    ai_context_note := state.ai_enrichment.context_note
    summary := state.ai_enrichment.summary
    classification_reasoning := state.ai_enrichment.classification_reasoning
    is_complaint := state.ai_enrichment.is_complaint
    needs_careful_response := state.ai_enrichment.needs_careful_response
    suggested_approach := state.ai_enrichment.suggested_approach
    suggested_actions := state.ai_enrichment.suggested_actions
    processed_at := now }

/-- The insert branch of _upsert_message: a full new row from the state;
parsed_ts is the result of _parse_timestamp(state.timestamp). -/
def new_row_from_state (state : MessageState) (parsed_ts now : ℚ) : MessageRow :=
  { id := state.id
    user_id := state.user_id
    platform := state.platform
    platform_message_id := state.platform_message_id
    thread_id := state.thread_id
    sender_id := state.sender.id
    sender_name := state.sender.name
    sender_email := state.sender.email
    content_text := state.content_text
    timestamp := parsed_ts
    is_read := state.is_read
    is_done := state.is_done
    snoozed_until := none
    priority_score := state.ai_enrichment.priority_score
    priority_label := state.ai_enrichment.priority_label
    sentiment := state.ai_enrichment.sentiment
    ai_context_note := state.ai_enrichment.context_note
    summary := state.ai_enrichment.summary
    classification_reasoning := state.ai_enrichment.classification_reasoning
    is_complaint := state.ai_enrichment.is_complaint
    needs_careful_response := state.ai_enrichment.needs_careful_response
    suggested_approach := state.ai_enrichment.suggested_approach
    suggested_actions := state.ai_enrichment.suggested_actions
    draft_reply := state.draft_reply
    processed_at := now }

/-- _upsert_message: select by natural key with scalar_one_or_none —
none when more than one row matches (MultipleResultsFound would raise);
update the single hit or insert on miss. -/
def upsert_message (db : List MessageRow) (state : MessageState)
    (parsed_ts now : ℚ) : Option (List MessageRow) :=
  match db.filter (msg_key_matches state) with
  | [] => some (db ++ [new_row_from_state state parsed_ts now])
  | [_] => some (db.map (fun r =>
      if msg_key_matches state r then update_enrichment_fields r state now else r))
  | _ => none

/-- The user-state frame of claim C5: fields the update branch must not
touch. -/
def same_user_frame (old new : MessageRow) : Prop :=
  old.content_text = new.content_text ∧ old.timestamp = new.timestamp ∧
  old.is_read = new.is_read ∧ old.is_done = new.is_done ∧
  old.snoozed_until = new.snoozed_until ∧ old.draft_reply = new.draft_reply

/-- The enrichment fields of claim C5: what the update branch writes. -/
def enrichment_updated (new : MessageRow) (state : MessageState) (now : ℚ) : Prop :=
  new.priority_score = state.ai_enrichment.priority_score ∧
  new.priority_label = state.ai_enrichment.priority_label ∧
  new.sentiment = state.ai_enrichment.sentiment ∧
  new.ai_context_note = state.ai_enrichment.context_note ∧
  new.summary = state.ai_enrichment.summary ∧
  new.classification_reasoning = state.ai_enrichment.classification_reasoning ∧
  new.is_complaint = state.ai_enrichment.is_complaint ∧
  new.needs_careful_response = state.ai_enrichment.needs_careful_response ∧
  new.suggested_approach = state.ai_enrichment.suggested_approach ∧
  new.suggested_actions = state.ai_enrichment.suggested_actions ∧
  new.processed_at = now

lemma msg_key_matches_update (state : MessageState) (row : MessageRow) (now : ℚ) :
    msg_key_matches state (update_enrichment_fields row state now)
      = msg_key_matches state row := rfl

/-- C5: when exactly one row carries the (user_id, platform,
platform_message_id) triple, re-running the pipeline upsert adds no
second row, still leaves exactly one row with the triple, rewrites only
that row's enrichment fields and processed_at, and leaves content_text,
timestamp, is_read, is_done, snoozed_until and draft_reply of every row
unchanged. -/
theorem C5_upsert_idempotent (db : List MessageRow) (state : MessageState)
    (parsed_ts now : ℚ)
    (hexists : (db.filter (msg_key_matches state)).length = 1) :
    ∃ db2, upsert_message db state parsed_ts now = some db2 ∧
      db2.length = db.length ∧
      (db2.filter (msg_key_matches state)).length = 1 ∧
      List.Forall₂ (fun old new =>
        same_user_frame old new ∧
        (msg_key_matches state old = false → new = old) ∧
        (msg_key_matches state old = true →
          enrichment_updated new state now)) db db2 := by
  obtain ⟨x, hx⟩ := List.length_eq_one.mp hexists
  refine ⟨db.map (fun r =>
      if msg_key_matches state r then update_enrichment_fields r state now else r),
    ?_, List.length_map db _, ?_, ?_⟩
  · unfold upsert_message
    rw [hx]
  · rw [List.filter_map]
    rw [List.length_map]
    have hfun : (msg_key_matches state ∘ fun r =>
        if msg_key_matches state r then update_enrichment_fields r state now else r)
        = msg_key_matches state := by
      funext r
      show msg_key_matches state
        (if msg_key_matches state r then update_enrichment_fields r state now else r)
        = msg_key_matches state r
      by_cases hm : msg_key_matches state r = true
      · rw [if_pos hm, msg_key_matches_update]
      · rw [if_neg hm]
    rw [hfun]
    exact hexists
  · rw [List.forall₂_map_right_iff]
    rw [List.forall₂_same]
    intro r hr
    by_cases hm : msg_key_matches state r = true
    · rw [if_pos hm]
      refine ⟨⟨rfl, rfl, rfl, rfl, rfl, rfl⟩, fun hc => ?_,
        fun _ => ⟨rfl, rfl, rfl, rfl, rfl, rfl, rfl, rfl, rfl, rfl, rfl⟩⟩
      rw [hm] at hc
      exact absurd hc (by decide)
    · rw [if_neg hm]
      exact ⟨⟨rfl, rfl, rfl, rfl, rfl, rfl⟩, fun _ => rfl, fun hc => absurd hc hm⟩

/-- A row and a state sharing the natural key ("u1", "slack", "pm5"). -/
def c5row : MessageRow :=
  ⟨"m5", "u1", "slack", "pm5", "t5", "s5", "Kim", none, "old text", 7,
    true, true, some 9, 1/4, "fyi", "neutral", "old note", "old summary", "old why",
    false, false, "", [], some "old draft", 3⟩

/-- The re-ingested state for claim C5's witness. -/
def c5state : MessageState :=
  ⟨"m5b", "u1", "slack", "pm5", "t5",
    ⟨"s5", "Kim", none, "work_contact", false, 1/2⟩,
    "new text", "2025-01-02T00:00:00Z", false, false, none,
    ⟨7/10, "action", "tense", "new summary", "new note", ["reply"], false, true,
      "careful", false, "new why"⟩,
    some "new draft"⟩

/-- Witness for C5 at a concrete one-row database. -/
theorem C5_upsert_idempotent_witness :
    ∃ db2, upsert_message [c5row] c5state 7 8 = some db2 ∧
      db2.length = [c5row].length ∧
      (db2.filter (msg_key_matches c5state)).length = 1 ∧
      List.Forall₂ (fun old new =>
        same_user_frame old new ∧
        (msg_key_matches c5state old = false → new = old) ∧
        (msg_key_matches c5state old = true →
          enrichment_updated new c5state 8)) [c5row] db2 :=
  C5_upsert_idempotent [c5row] c5state 7 8 (by with_unfolding_all decide)

/-! ## Score decay job (backend/tasks/sync.py, _async_decay_scores)

The hourly task selects rows with is_done = false, timestamp older than
24 hours, and priority_score > 0.1, and rescales their scores. Times are
in hours, so the age of a row at time now is now - timestamp. -/

/-- The per-row action of one decay pass at time now: the SELECT
condition gates the update; the new score is
max(0.05, round3(score · max(0.3, 1 − 0.05·(age_h − 24)/12))). -/
def decay_update_row (now : ℚ) (m : MessageRow) : MessageRow :=
  if m.is_done = false ∧ m.timestamp < now - 24 ∧ 1/10 < m.priority_score then
    let age_hours := now - m.timestamp
    let decay_periods := (age_hours - 24) / 12
    let decay_factor := max (3/10) (1 - decay_periods * (5/100))
    let new_score := max (1/20) (round3 (m.priority_score * decay_factor))
    { m with priority_score := new_score }
  else m

/-- One full decay pass over the store. -/
def decay_scores_job (now : ℚ) (db : List MessageRow) : List MessageRow :=
  db.map (decay_update_row now)

/-- The scenario row of claim C6: score 0.80, 72 hours old at the first
pass (timestamp 0, first pass at now = 72), not done. -/
def c6row : MessageRow :=
  ⟨"m6", "u1", "gmail", "pm6", "t6", "s6", "Rio", none, "report", 0,
    false, false, none, 8/10, "action", "neutral", "", "", "",
    false, false, "", [], none, 0⟩

/-- The scenario trajectory: hourly decay passes starting 72 hours after
the message's timestamp. -/
def decayTraj : ℕ → MessageRow
  | 0 => c6row
  | n + 1 => decay_update_row (72 + n) (decayTraj n)

lemma decay_update_row_is_done (now : ℚ) (m : MessageRow) :
    (decay_update_row now m).is_done = m.is_done := by
  unfold decay_update_row
  split_ifs <;> rfl

lemma decay_update_row_timestamp (now : ℚ) (m : MessageRow) :
    (decay_update_row now m).timestamp = m.timestamp := by
  unfold decay_update_row
  split_ifs <;> rfl

lemma decay_update_row_stable (now : ℚ) (m : MessageRow)
    (h : m.priority_score ≤ 1/10) : decay_update_row now m = m := by
  unfold decay_update_row
  rw [if_neg]
  rintro ⟨_, _, hgt⟩
  linarith

lemma decayTraj_nine : (decayTraj 9).priority_score = 89/1000 := by
  with_unfolding_all decide

lemma decayTraj_stable (n : ℕ) (h : 9 ≤ n) :
    (decayTraj n).priority_score = 89/1000 := by
  induction n with
  | zero => omega
  | succ k ih =>
    rcases Nat.lt_or_ge k 9 with hk | hk
    · have hk8 : k = 8 := by omega
      subst hk8
      exact decayTraj_nine
    · show (decay_update_row (72 + k) (decayTraj k)).priority_score = 89/1000
      rw [decay_update_row_stable _ _ (by rw [ih hk]; norm_num)]
      exact ih hk

/-- C6 counterexample: along the claim's own scenario (hourly passes on
a 72-hour-old message starting at score 0.80) the score never reaches
0.05: decay stops once the score falls to ≤ 0.1 — here it stabilizes at
0.089 forever, because the job only selects scores above 0.1. -/
theorem C6_counterexample : ¬ ∃ n : ℕ, (decayTraj n).priority_score = 5/100 := by
  rintro ⟨n, hn⟩
  rcases Nat.lt_or_ge n 9 with h | h
  · interval_cases n <;> revert hn <;> with_unfolding_all decide
  · rw [decayTraj_stable n h] at hn
    norm_num at hn

/-- C6 (amended): the first decay pass takes the 3-day-old score 0.80 to
0.64; every later hourly pass keeps the score at or above the 0.05
floor, but the trajectory stabilizes at 0.089 from the ninth pass on
(the job skips scores ≤ 0.1), so 0.05 is a lower bound that is never
attained. The first conjunct ties the trajectory to a full job pass. -/
theorem C6_decay_trajectory :
    decay_scores_job 72 [c6row] = [decayTraj 1] ∧
    (decayTraj 1).priority_score = 64/100 ∧
    (∀ n : ℕ, 1/20 ≤ (decayTraj n).priority_score) ∧
    (∀ n : ℕ, 9 ≤ n → (decayTraj n).priority_score = 89/1000) := by
  refine ⟨by with_unfolding_all decide, by with_unfolding_all decide, ?_, decayTraj_stable⟩
  intro n
  rcases Nat.lt_or_ge n 9 with h | h
  · interval_cases n <;> with_unfolding_all decide
  · rw [decayTraj_stable n h]
    norm_num

/-- Witness for the amended C6: the hypothesis-carrying conjunct applied
at n = 12. -/
theorem C6_decay_trajectory_witness : (decayTraj 12).priority_score = 89/1000 :=
  C6_decay_trajectory.2.2.2 12 (by norm_num)

/-! ## Webhook endpoints (backend/api/webhooks.py)

Each endpoint is modelled as a function from the (parsed shape of the)
incoming HTTP request to the response status code. request.json() that
raises is modelled by bodyJson = none; in gmail_webhook and
telegram_webhook that exception is swallowed by the surrounding
try/except (status 200), while slack_webhook has no such handler, so an
unhandled exception surfaces as the framework's 500. The HMAC signature
check _verify_slack_signature is an external computation whose boolean
outcome enters as the signatureValid field. Enqueued Celery tasks
(.delay) are fire-and-forget and do not affect the status. -/

structure GmailNotification where
  emailAddress : String
  historyId : String
deriving DecidableEq, Repr

structure GmailBody where
  messageData : String
  decoded : Option GmailNotification
deriving DecidableEq, Repr

structure GmailRequest where
  bodyJson : Option GmailBody
deriving DecidableEq, Repr

/-- POST /webhooks/gmail: the whole handler body sits in try/except and
every path returns ok — the except branch comments "Always return 200 to
prevent retries". -/
def gmail_webhook (r : GmailRequest) : Nat :=
  match r.bodyJson with
  | none => 200
  | some body =>
    if body.messageData = "" then 200
    else
      match body.decoded with
      | none => 200
      | some _ => 200

structure SlackEvent where
  bot_id : Option String
  eventType : Option String
  subtype : Option String
deriving DecidableEq, Repr

structure SlackBody where
  bodyType : Option String
  challenge : Option String
  event : SlackEvent
deriving DecidableEq, Repr

structure SlackRequest where
  bodyJson : Option SlackBody
  signatureValid : Bool
deriving DecidableEq, Repr

/-- POST /webhooks/slack: no try/except — an unparseable body or a
missing challenge key raises (500); an invalid signature raises
HTTPException 403; every remaining path (bot messages, skipped subtypes,
processed events) returns ok 200. -/
def slack_webhook (r : SlackRequest) : Nat :=
  match r.bodyJson with
  | none => 500
  | some body =>
    if body.bodyType = some "url_verification" then
      match body.challenge with
      | none => 500
      | some _ => 200
    else if r.signatureValid = false then 403
    else
      match body.event.bot_id with
      | some _ => 200
      | none =>
        match body.event.eventType, body.event.subtype with
        | _, _ => 200

structure TelegramMessage where
  text : String
deriving DecidableEq, Repr

structure TelegramUpdate where
  message : Option TelegramMessage
  edited_message : Option TelegramMessage
deriving DecidableEq, Repr

structure TelegramRequest where
  bodyJson : Option TelegramUpdate
deriving DecidableEq, Repr

/-- POST /webhooks/telegram/user_id: like gmail, fully wrapped in
try/except returning ok on every path. -/
def telegram_webhook (_user_id : String) (r : TelegramRequest) : Nat :=
  match r.bodyJson with
  | none => 200
  | some upd =>
    match upd.message, upd.edited_message with
    | none, none => 200
    | some msg, _ => if msg.text = "" then 200 else 200
    | none, some msg => if msg.text = "" then 200 else 200

/-- Is a status code in the 2xx success class? -/
def is2xx (status : Nat) : Bool := 200 ≤ status && status < 300

/-- C7 counterexample: a parseable Slack event with an invalid signature
is answered 403, not 2xx — the slack endpoint does not always return
success. -/
theorem C7_counterexample :
    slack_webhook ⟨some ⟨some "event_callback", none, ⟨none, some "message", none⟩⟩, false⟩
      = 403 ∧
    is2xx (slack_webhook
      ⟨some ⟨some "event_callback", none, ⟨none, some "message", none⟩⟩, false⟩) = false := by
  decide

/-- C7 (amended): gmail and telegram webhooks answer 200 to every
delivered payload regardless of shape or downstream outcome; the slack
webhook answers 200, 403 or 500, and succeeds (2xx) exactly when the
body parses and is either a url_verification carrying a challenge or a
non-verification event with a valid signature. -/
theorem C7_webhook_statuses :
    (∀ r : GmailRequest, gmail_webhook r = 200) ∧
    (∀ (u : String) (r : TelegramRequest), telegram_webhook u r = 200) ∧
    (∀ r : SlackRequest,
      (slack_webhook r = 200 ∨ slack_webhook r = 403 ∨ slack_webhook r = 500) ∧
      (is2xx (slack_webhook r) = true ↔
        (∃ body, r.bodyJson = some body ∧
          ((body.bodyType = some "url_verification" ∧ body.challenge ≠ none) ∨
           (body.bodyType ≠ some "url_verification" ∧ r.signatureValid = true))))) := by
  refine ⟨?_, ?_, ?_⟩
  · rintro ⟨_ | ⟨md, dec⟩⟩
    · rfl
    · show (if md = "" then 200 else match dec with | none => 200 | some _ => 200) = 200
      split_ifs
      · rfl
      · cases dec <;> rfl
  · rintro u ⟨_ | ⟨msg, emsg⟩⟩
    · rfl
    · show (match msg, emsg with
        | none, none => 200
        | some m, _ => if m.text = "" then 200 else 200
        | none, some m => if m.text = "" then 200 else 200) = 200
      rcases msg with _ | m
      · rcases emsg with _ | m
        · rfl
        · show (if m.text = "" then 200 else 200) = 200
          split_ifs <;> rfl
      · show (if m.text = "" then 200 else 200) = 200
        split_ifs <;> rfl
  · rintro ⟨_ | ⟨bt, ch, ⟨bid, et, st⟩⟩, sig⟩
    · exact ⟨Or.inr (Or.inr rfl), by simp [slack_webhook, is2xx]⟩
    · by_cases hv : bt = some "url_verification"
      · rcases ch with _ | c
        · refine ⟨Or.inr (Or.inr ?_), ?_⟩
          · simp [slack_webhook, hv]
          · simp [slack_webhook, hv, is2xx]
        · refine ⟨Or.inl ?_, ?_⟩
          · simp [slack_webhook, hv]
          · simp [slack_webhook, hv, is2xx]
      · rcases hsig : sig with _ | _
        · refine ⟨Or.inr (Or.inl ?_), ?_⟩
          · simp [slack_webhook, hv]
          · simp [slack_webhook, hv, is2xx]
        · refine ⟨Or.inl ?_, ?_⟩
          · simp [slack_webhook, hv]
            rcases bid with _ | b <;> simp
          · constructor
            · intro _
              exact ⟨⟨bt, ch, ⟨bid, et, st⟩⟩, rfl, Or.inr ⟨hv, rfl⟩⟩
            · intro _
              simp [slack_webhook, hv, is2xx]
              rcases bid with _ | b <;> simp

/-! ## Token encryption at rest (backend/core/security.py)

encrypt_token produces base64(nonce(12 bytes) || AESGCM(key).encrypt(...))
and decrypt_token splits the decoded blob at byte 12. The AES-GCM
primitive is the external cryptography library; it enters as a pair of
byte-level functions, with its decrypt-of-encrypt identity as a
hypothesis. Base64 itself is modelled faithfully (RFC 4648 with '='
padding) so that the split and the nonce-freshness argument are about
the real wire format. -/

def b64chars : List Char :=
  ['A','B','C','D','E','F','G','H','I','J','K','L','M',
   'N','O','P','Q','R','S','T','U','V','W','X','Y','Z',
   'a','b','c','d','e','f','g','h','i','j','k','l','m',
   'n','o','p','q','r','s','t','u','v','w','x','y','z',
   '0','1','2','3','4','5','6','7','8','9','+','/']

def sextetToChar (n : Nat) : Char := b64chars.getD n 'A'

def charToSextet (c : Char) : Nat := b64chars.indexOf c

/-- base64.b64encode on a byte list (three bytes to four characters,
'=' padding). -/
def b64encodeBytes : List Nat → List Char
  | [] => []
  | [x] => [sextetToChar (x / 4), sextetToChar (x % 4 * 16), '=', '=']
  | [x, y] => [sextetToChar (x / 4), sextetToChar (x % 4 * 16 + y / 16),
               sextetToChar (y % 16 * 4), '=']
  | x :: y :: z :: rest =>
      sextetToChar (x / 4) :: sextetToChar (x % 4 * 16 + y / 16) ::
      sextetToChar (y % 16 * 4 + z / 64) :: sextetToChar (z % 64) ::
      b64encodeBytes rest

/-- base64.b64decode on well-formed input. -/
def b64decodeChars : List Char → List Nat
  | c0 :: c1 :: c2 :: c3 :: rest =>
    if c2 = '=' then [charToSextet c0 * 4 + charToSextet c1 / 16]
    else if c3 = '=' then
      [charToSextet c0 * 4 + charToSextet c1 / 16,
       charToSextet c1 % 16 * 16 + charToSextet c2 / 4]
    else
      (charToSextet c0 * 4 + charToSextet c1 / 16) ::
      (charToSextet c1 % 16 * 16 + charToSextet c2 / 4) ::
      (charToSextet c2 % 4 * 64 + charToSextet c3) :: b64decodeChars rest
  | _ => []

lemma charToSextet_sextetToChar {n : Nat} (h : n < 64) :
    charToSextet (sextetToChar n) = n := by
  revert n h
  decide

lemma sextetToChar_ne_pad {n : Nat} (h : n < 64) : sextetToChar n ≠ '=' := by
  revert n h
  decide

theorem b64_round_trip : ∀ l : List Nat, (∀ b ∈ l, b < 256) →
    b64decodeChars (b64encodeBytes l) = l := by
  intro l
  induction l using b64encodeBytes.induct with
  | case1 =>
    intro _
    rfl
  | case2 x =>
    intro h
    have hx : x < 256 := h x (by simp)
    rw [b64encodeBytes, b64decodeChars]
    rw [if_pos rfl, charToSextet_sextetToChar (by omega : x / 4 < 64),
        charToSextet_sextetToChar (by omega : x % 4 * 16 < 64)]
    simp only [List.cons.injEq, and_true]
    omega
  | case3 x y =>
    intro h
    have hx : x < 256 := h x (by simp)
    have hy : y < 256 := h y (by simp)
    rw [b64encodeBytes, b64decodeChars]
    rw [if_neg (sextetToChar_ne_pad (by omega : y % 16 * 4 < 64)), if_pos rfl]
    rw [charToSextet_sextetToChar (by omega : x / 4 < 64),
        charToSextet_sextetToChar (by omega : x % 4 * 16 + y / 16 < 64),
        charToSextet_sextetToChar (by omega : y % 16 * 4 < 64)]
    simp only [List.cons.injEq, and_true]
    omega
  | case4 x y z rest ih =>
    intro h
    have hx : x < 256 := h x (by simp)
    have hy : y < 256 := h y (by simp)
    have hz : z < 256 := h z (by simp)
    have hrest : ∀ b ∈ rest, b < 256 := fun b hb => h b (by simp [hb])
    rw [b64encodeBytes, b64decodeChars]
    rw [if_neg (sextetToChar_ne_pad (by omega : y % 16 * 4 + z / 64 < 64)),
        if_neg (sextetToChar_ne_pad (by omega : z % 64 < 64))]
    rw [charToSextet_sextetToChar (by omega : x / 4 < 64),
        charToSextet_sextetToChar (by omega : x % 4 * 16 + y / 16 < 64),
        charToSextet_sextetToChar (by omega : y % 16 * 4 + z / 64 < 64),
        charToSextet_sextetToChar (by omega : z % 64 < 64)]
    rw [ih hrest]
    simp only [List.cons.injEq, and_true]
    refine ⟨by omega, by omega, by omega⟩

/-- encrypt_token: base64(nonce || AESGCM.encrypt(nonce, plaintext)).
The library cipher is the aesgcm_encrypt parameter; the 96-bit random
nonce (os.urandom(12)) is the nonce parameter. -/
def encrypt_token (aesgcm_encrypt : List Nat → List Nat → List Nat)
    (nonce plaintext : List Nat) : List Char :=
  b64encodeBytes (nonce ++ aesgcm_encrypt nonce plaintext)

/-- decrypt_token: base64-decode, split at byte 12 into nonce and
ciphertext, then AESGCM.decrypt. -/
def decrypt_token (aesgcm_decrypt : List Nat → List Nat → List Nat)
    (encrypted : List Char) : List Nat :=
  let raw := b64decodeChars encrypted
  aesgcm_decrypt (raw.take 12) (raw.drop 12)

/-- C9: for every plaintext (as its UTF-8 bytes), decrypting an
encryption returns the plaintext, and two encryptions under distinct
fresh 12-byte nonces give different ciphertext strings that both decrypt
back to the plaintext. The AES-GCM identity dec(n, enc(n, p)) = p of the
external library is a hypothesis; byte-ness of nonces and cipher output
reflects os.urandom and the library contract. -/
theorem C9_token_round_trip
    (aes_enc aes_dec : List Nat → List Nat → List Nat)
    (n1 n2 pt : List Nat)
    (hn1len : n1.length = 12) (hn2len : n2.length = 12)
    (hn1b : ∀ b ∈ n1, b < 256) (hn2b : ∀ b ∈ n2, b < 256)
    (hc1b : ∀ b ∈ aes_enc n1 pt, b < 256) (hc2b : ∀ b ∈ aes_enc n2 pt, b < 256)
    (hdec1 : aes_dec n1 (aes_enc n1 pt) = pt)
    (hdec2 : aes_dec n2 (aes_enc n2 pt) = pt)
    (hne : n1 ≠ n2) :
    decrypt_token aes_dec (encrypt_token aes_enc n1 pt) = pt ∧
    decrypt_token aes_dec (encrypt_token aes_enc n2 pt) = pt ∧
    encrypt_token aes_enc n1 pt ≠ encrypt_token aes_enc n2 pt := by
  have hbytes1 : ∀ b ∈ n1 ++ aes_enc n1 pt, b < 256 := by
    intro b hb
    rcases List.mem_append.mp hb with h | h
    · exact hn1b b h
    · exact hc1b b h
  have hbytes2 : ∀ b ∈ n2 ++ aes_enc n2 pt, b < 256 := by
    intro b hb
    rcases List.mem_append.mp hb with h | h
    · exact hn2b b h
    · exact hc2b b h
  have hraw1 : b64decodeChars (b64encodeBytes (n1 ++ aes_enc n1 pt))
      = n1 ++ aes_enc n1 pt := b64_round_trip _ hbytes1
  have hraw2 : b64decodeChars (b64encodeBytes (n2 ++ aes_enc n2 pt))
      = n2 ++ aes_enc n2 pt := b64_round_trip _ hbytes2
  have htake1 : (n1 ++ aes_enc n1 pt).take 12 = n1 := by
    rw [← hn1len]
    exact List.take_left n1 _
  have hdrop1 : (n1 ++ aes_enc n1 pt).drop 12 = aes_enc n1 pt := by
    rw [← hn1len]
    exact List.drop_left n1 _
  have htake2 : (n2 ++ aes_enc n2 pt).take 12 = n2 := by
    rw [← hn2len]
    exact List.take_left n2 _
  have hdrop2 : (n2 ++ aes_enc n2 pt).drop 12 = aes_enc n2 pt := by
    rw [← hn2len]
    exact List.drop_left n2 _
  refine ⟨?_, ?_, ?_⟩
  · show aes_dec ((b64decodeChars (encrypt_token aes_enc n1 pt)).take 12)
      ((b64decodeChars (encrypt_token aes_enc n1 pt)).drop 12) = pt
    unfold encrypt_token
    rw [hraw1, htake1, hdrop1, hdec1]
  · show aes_dec ((b64decodeChars (encrypt_token aes_enc n2 pt)).take 12)
      ((b64decodeChars (encrypt_token aes_enc n2 pt)).drop 12) = pt
    unfold encrypt_token
    rw [hraw2, htake2, hdrop2, hdec2]
  · intro heq
    unfold encrypt_token at heq
    have hcat : n1 ++ aes_enc n1 pt = n2 ++ aes_enc n2 pt := by
      rw [← hraw1, ← hraw2, heq]
    have : n1 = n2 := by
      have h12 : (n1 ++ aes_enc n1 pt).take 12 = (n2 ++ aes_enc n2 pt).take 12 := by
        rw [hcat]
      rw [htake1, htake2] at h12
      exact h12
    exact hne this

/-- Witness for C9: the identity cipher satisfies the AES-GCM round-trip
hypothesis; fresh distinct 12-byte nonces give distinct ciphertexts. -/
theorem C9_token_round_trip_witness :
    decrypt_token (fun _ c => c)
      (encrypt_token (fun _ p => p) [0,0,0,0,0,0,0,0,0,0,0,0] [104,105]) = [104,105] ∧
    decrypt_token (fun _ c => c)
      (encrypt_token (fun _ p => p) [1,0,0,0,0,0,0,0,0,0,0,0] [104,105]) = [104,105] ∧
    encrypt_token (fun _ p => p) [0,0,0,0,0,0,0,0,0,0,0,0] [104,105] ≠
      encrypt_token (fun _ p => p) [1,0,0,0,0,0,0,0,0,0,0,0] [104,105] :=
  C9_token_round_trip (fun _ p => p) (fun _ c => c)
    [0,0,0,0,0,0,0,0,0,0,0,0] [1,0,0,0,0,0,0,0,0,0,0,0] [104,105]
    rfl rfl (by decide) (by decide) (by decide) (by decide) rfl rfl (by decide)
